import Mathlib

/-!
Verification development for the NewZeaLiDAR repository: shallow embeddings of
the configuration reader, the dataset-crawler upsert, the orchestrator run
selection and batch loop, the datum-utility rollback block, the instructions
JSON mapping, and the geometry algorithms (katana, filter_geometry,
remove_holes), together with theorems about them.
-/

/-- Python exception kinds raised by the embedded code. -/
inductive PyErr where
  | keyError (msg : String)
  | valueError (msg : String)
  | typeError (msg : String)
  | attributeError (msg : String)
  | assertionError (msg : String)
deriving DecidableEq, Repr

/-! ## src/utils.py: environment access and string casting -/

/-- Embedding of the Python str.lower call as used on the ASCII configuration
strings of src/utils.py: lower-case every character. -/
def pyLower (s : String) : String := String.mk (s.data.map Char.toLower)

/-- The truth_values set of _cast_str (src/utils.py line 79). -/
def truth_values : List String := ["true", "t", "1"]

/-- The false_values set of _cast_str (src/utils.py line 80). -/
def false_values : List String := ["false", "f", "0"]

/-- Embedding of _cast_str (src/utils.py lines 65-87) specialised to
cast_to = bool: lowercase membership in truth_values gives true, in
false_values gives false, anything else raises ValueError. -/
def cast_str_bool (str_to_cast : String) : Except PyErr Bool :=
  if pyLower str_to_cast ∈ truth_values then Except.ok true
  else if pyLower str_to_cast ∈ false_values then Except.ok false
  else Except.error (PyErr.valueError
    (str_to_cast ++ " being casted to bool but is not a recognised boolean string"))

/-- Embedding of os.getenv with a default (src/utils.py line 59): the
environment is a partial map from variable names to strings. -/
def os_getenv (env : String → Option String) (var_name : String)
    (default : Option String) : Option String :=
  match env var_name with
  | some v => some v
  | Option.none => default

/-- Python str(x) on an optional string: str(None) is the string "None".
Used by _cast_str with cast_to = str. -/
def pyStrOfOpt (v : Option String) : String :=
  match v with
  | some s => s
  | Option.none => "None"

/-- Embedding of get_env_variable (src/utils.py lines 46-62) with
cast_to = str: raises KeyError when the variable is None or empty and
allow_empty is False, otherwise casts the value to str. -/
def get_env_variable_str (env : String → Option String) (var_name : String)
    (default : Option String) (allow_empty : Bool) : Except PyErr String :=
  let env_var := os_getenv env var_name default
  if allow_empty = false ∧ (env_var = Option.none ∨ env_var = some "") then
    Except.error (PyErr.keyError
      ("Environment variable " ++ var_name ++ " not set, and allow_empty is False"))
  else
    Except.ok (pyStrOfOpt env_var)

/-! ## src/process.py: gen_instructions data-path assembly (lines 67-90) -/

/-- Embedding of the data_paths assembly of gen_instructions
(src/process.py lines 67-90), restricted to the environment reads and the
data_paths entries it writes.  The source guards the land entry with:
if utils.get_env_variable("LAND_FILE") is not None.  Since get_env_variable
is called with its defaults (default None, allow_empty False), it raises
KeyError whenever LAND_FILE is unset or empty, and otherwise returns a
string, which is never None; so the guard is always taken when the call
returns at all. -/
def gen_instructions_data_paths (env : String → Option String) (index : Int) :
    Except PyErr (List (String × String)) := do
  let data_dir ← get_env_variable_str env "DATA_DIR" Option.none false
  let dem_dir ← get_env_variable_str env "DEM_DIR" Option.none false
  let subfolder := dem_dir ++ "/" ++ toString index
  let base := [("local_cache", data_dir),
               ("subfolder", subfolder),
               ("downloads", data_dir),
               ("result_dem", toString index ++ ".nc"),
               ("raw_dem", toString index ++ "_raw_dem.nc"),
               ("raw_dem_extents", toString index ++ "_raw_extents.geojson"),
               ("catchment_boundary", toString index ++ ".geojson")]
  let land_file ← get_env_variable_str env "LAND_FILE" Option.none false
  Except.ok (base ++ [("land", "../../" ++ land_file)])

/-! ## src/src/datasets.py: ExtraFilesPipeline.item_completed (lines 83-136) -/

/-- Fields of a crawled DatasetItem as consumed by item_completed. -/
structure DatasetItem where
  name : String
  describe : String
  survey_start_date : String
  survey_end_date : String
  point_cloud_density : String
  datum : String
  meta_path : String
  meta_source : String
  extent_path : String
  tile_path : String
  geometry : String
deriving DecidableEq, Repr

/-- One row of the Dataset table, with the columns written by item_completed. -/
structure DatasetRow where
  id : Int
  name : String
  describe : String
  survey_start_date : String
  survey_end_date : String
  point_cloud_density : String
  original_datum : String
  meta_path : String
  meta_source : String
  extent_path : String
  tile_path : String
  geometry : String
  created_at : String
  updated_at : String
deriving DecidableEq, Repr

/-- Rows of a table whose name column equals the given name. -/
def rowsNamed (table : List DatasetRow) (name : String) : List DatasetRow :=
  table.filter (fun r => r.name = name)

/-- Modelled from the spec: the persistence layer (src.tables, whose body is
not under src/) provides retrieval of the maximum surrogate id in a table for
id allocation; on an empty table the query yields Python None. -/
def get_max_value (table : List DatasetRow) : Option Int :=
  match table.map (fun r => r.id) with
  | [] => Option.none
  | x :: xs => some (xs.foldl max x)

/-- Modelled from the spec: the persistence layer (src.tables, whose body is
not under src/) provides table deletion by matching a column value; here the
column is name. -/
def delete_table_by_name (table : List DatasetRow) (name : String) : List DatasetRow :=
  table.filter (fun r => r.name ≠ name)

/-- The row built from the crawled item by the data dict of item_completed
(src/src/datasets.py lines 88-104): id is initialised to -1 and both
timestamps to the crawl time, before the branch overwrites id (and, on
re-crawl, created_at). -/
def row_from_item (item : DatasetItem) (timestamp : String) : DatasetRow :=
  { id := -1,
    name := item.name,
    describe := item.describe,
    survey_start_date := item.survey_start_date,
    survey_end_date := item.survey_end_date,
    point_cloud_density := item.point_cloud_density,
    original_datum := item.datum,
    meta_path := item.meta_path,
    meta_source := item.meta_source,
    extent_path := item.extent_path,
    tile_path := item.tile_path,
    geometry := item.geometry,
    created_at := timestamp,
    updated_at := timestamp }

/-- The fresh id allocated on a miss: the Python expression is
_id + 1 if _id else 1, so a None (empty table) or zero maximum yields 1 and
any other maximum m yields m + 1. -/
def new_dataset_id (table : List DatasetRow) : Int :=
  match get_max_value table with
  | Option.none => 1
  | some m => if m ≠ 0 then m + 1 else 1

/-- The row appended on a miss: all fields from the crawl, id freshly
allocated. -/
def upsert_row_new (table : List DatasetRow) (item : DatasetItem)
    (timestamp : String) : DatasetRow :=
  { row_from_item item timestamp with id := new_dataset_id table }

/-- The row appended on a hit: all fields from the crawl except id and
created_at, which are copied from the pre-existing row. -/
def upsert_row_existing (item : DatasetItem) (timestamp : String)
    (prev : DatasetRow) : DatasetRow :=
  { row_from_item item timestamp with id := prev.id, created_at := prev.created_at }

/-- Embedding of ExtraFilesPipeline.item_completed (src/src/datasets.py lines
83-136) acting on the Dataset table.  The select by name is the filter; on a
miss the freshly-identified row is appended; on a hit the matching rows are
deleted and the new row keeps the previous id and created_at.  The final
to_postgis append places the new row at the end. -/
def item_completed (table : List DatasetRow) (item : DatasetItem)
    (timestamp : String) : List DatasetRow :=
  match rowsNamed table item.name with
  | [] => table ++ [upsert_row_new table item timestamp]
  | prev :: _ =>
    delete_table_by_name table item.name ++ [upsert_row_existing item timestamp prev]

/-! ## src/process.py: run selection (lines 236-268) -/

/-- The catch_id argument of run: Python None, a single int, or a list. -/
inductive CatchIdArg where
  | noneArg
  | intArg (i : Int)
  | listArg (l : List Int)

/-- Database state read by the selection logic of run.  The two id lists are
the sorted catch_id columns of the sdc and catchment tables; splitSub models
get_split_catchment_by_id(engine, i, sub=True) and areaIds models
get_id_under_area(engine, SDC, area), both of which live in src.tables (not
under src/) and are modelled from the spec as pure query results. -/
structure RunDb where
  sdc_ids : List Int
  catchment_ids : List Int
  splitSub : Int → List Int
  areaIds : Int → List Int

/-- Embedding of the explicit-id validation loop of run (src/process.py lines
244-259): ids in the catchment table are kept; ids only in the sdc table are
replaced by their nonempty subordinate list; everything else is skipped with
a warning. -/
def resolve_catch_ids (db : RunDb) (ids : List Int) : List Int :=
  ids.foldl
    (fun acc i =>
      if i ∈ db.catchment_ids then acc ++ [i]
      else if i ∈ db.sdc_ids ∧ i ∉ db.catchment_ids then
        let l := db.splitSub i
        if 0 < l.length then acc ++ l else acc
      else acc)
    []

/-- Embedding of the selection branch of run (src/process.py lines 236-268).
A non-None catch_id (int or list) always enters the first branch; with
catch_id None and area given the area query is used; with both None the
source reaches the comparison catch_id < 0, which in Python is None < 0 and
raises TypeError, so the full-catchment branch and the final ValueError are
unreachable. -/
def run_select (db : RunDb) (catch_id : CatchIdArg) (area : Option Int) :
    Except PyErr (List Int) :=
  match catch_id with
  | CatchIdArg.intArg i => Except.ok (resolve_catch_ids db [i])
  | CatchIdArg.listArg l => Except.ok (resolve_catch_ids db l)
  | CatchIdArg.noneArg =>
    match area with
    | some a => Except.ok (db.areaIds a)
    | Option.none =>
      Except.error (PyErr.typeError
        "unsupported comparison between instances of NoneType and int")

/-! ## src/process.py: batch loop (lines 289-309) and store_hydro_to_db -/

/-- Result of one effectful Python step: a value or a raised exception. -/
inductive StepResult (α : Type) where
  | ok (a : α)
  | exn (e : PyErr)

/-- The top level of an instructions document, as an ordered dict. -/
abbrev Instr := List (String × String)

/-- Embedding of the entry of store_hydro_to_db (src/process.py lines
154-156): len(instructions) raises TypeError when instructions is None, and
the assert fails when the dict is empty; the remainder of the function (file
existence checks and the DemRecord upsert) is abstracted by the rest
argument. -/
def store_hydro_to_db (rest : Instr → StepResult Unit)
    (instructions : Option Instr) : StepResult Unit :=
  match instructions with
  | Option.none => StepResult.exn (PyErr.typeError "object of type NoneType has no len")
  | some ins =>
    if 0 < ins.length then rest ins
    else StepResult.exn (PyErr.assertionError "instructions is empty dictionary.")

/-- Truthiness of the resolution read from the instructions file, as used by
the gate: if resolution and lidar_extent.buffer(buffer).intersects(...).any().
None and 0 are falsy. -/
def resolutionTruthy (resolution : Option Int) : Bool :=
  match resolution with
  | Option.none => false
  | some r => r != 0

/-- Embedding of the per-catchment batch loop of run (src/process.py lines
289-309).  Per catchment: the extent gate is checked; prep models
get_data_by_id plus gen_boundary_file (outside the try, so an exception
aborts); proc models single_process and is the only call inside the
try/except, so its exception appends the id to the failed list and the loop
continues; store models store_hydro_to_db, again outside the try, so its
exception aborts the whole batch.  The ok value is the failed list at the
end of the loop. -/
def run_batch (resolution : Option Int) (within : Int → Bool)
    (prep : Int → StepResult Unit)
    (proc : Int → StepResult (Option Instr))
    (store : Option Instr → StepResult Unit) :
    List Int → List Int → Except PyErr (List Int)
  | [], failed => Except.ok failed
  | i :: rest, failed =>
    if resolutionTruthy resolution = true ∧ within i = true then
      match prep i with
      | StepResult.exn e => Except.error e
      | StepResult.ok _ =>
        match proc i with
        | StepResult.exn _ =>
          run_batch resolution within prep proc store rest (failed ++ [i])
        | StepResult.ok si =>
          match store si with
          | StepResult.exn e => Except.error e
          | StepResult.ok _ =>
            run_batch resolution within prep proc store rest failed
    else
      run_batch resolution within prep proc store rest failed

/-! ## scripts/datum_lvd_nzvd2016.py: special-directory finalization (lines 119-134) -/

/-- Embedding of pathlib stem for plain file names carrying an extension,
which is the only use in the script (names ending in .las): the characters
before the final dot. -/
def pyStem (f : String) : String :=
  let cs := f.data
  if '.' ∈ cs then
    String.mk ((cs.reverse.dropWhile (fun c => c ≠ '.')).drop 1).reverse
  else f

/-- Names obtained by renaming each input back to its original point-cloud
extension (f.stem + .laz), as in the rollback loop of the script. -/
def restore_laz_names (las_files : List String) : List String :=
  las_files.map (fun f => pyStem f ++ ".laz")

/-- Embedding of the special-directory finalization block of
scripts/datum_lvd_nzvd2016.py (lines 119-134), as a function of the produced
output names (laz_files, in dest_dir), the renamed input names (las_files,
in src_dir) and the number of issued pdal commands.  The value is the list of
point-cloud file names left in src_dir: on a count mismatch the run fails
(error payload = src_dir contents after any rollback), restoring the renamed
inputs only when zero outputs were produced; on a match the outputs are moved
into src_dir, the renamed inputs are deleted and the temporary directory is
removed. -/
def special_dir_finalize (laz_files las_files : List String)
    (pdal_cmd_count : Nat) : Except (List String) (List String) :=
  if laz_files.length ≠ pdal_cmd_count then
    if laz_files.length = 0 then
      Except.error (restore_laz_names las_files)
    else
      Except.error las_files
  else
    Except.ok laz_files

/-! ## src/utils.py: map_dataset_name_with_id (lines 210-221) over a JSON model -/

/-- JSON values of the instructions document. -/
inductive JValue where
  | jnull
  | jbool (b : Bool)
  | jnum (n : Int)
  | jstr (s : String)
  | jarr (xs : List JValue)
  | jobj (fields : List (String × JValue))

/-- Lookup in a JSON object, first-match-wins as in a Python dict whose keys
are unique. -/
def jlookup : List (String × JValue) → String → Option JValue
  | [], _ => Option.none
  | (k, v) :: rest, key => if k = key then some v else jlookup rest key

/-- Python dict item assignment on the field list: replace the value in place
when the key exists, otherwise append the pair. -/
def jsetKey : List (String × JValue) → String → JValue → List (String × JValue)
  | [], key, v => [(key, v)]
  | (k, w) :: rest, key, v =>
    if k = key then (k, v) :: rest else (k, w) :: jsetKey rest key v

/-- Python subscript read d[key]: KeyError for a missing key, TypeError when
the value is not a dict. -/
def jGetItem (j : JValue) (key : String) : Except PyErr JValue :=
  match j with
  | JValue.jobj fields =>
    match jlookup fields key with
    | some v => Except.ok v
    | Option.none => Except.error (PyErr.keyError key)
  | _ => Except.error (PyErr.typeError "value is not subscriptable")

/-- Python subscript write d[key] = v: TypeError when the value is not a
dict. -/
def jSetItem (j : JValue) (key : String) (v : JValue) : Except PyErr JValue :=
  match j with
  | JValue.jobj fields => Except.ok (JValue.jobj (jsetKey fields key v))
  | _ => Except.error (PyErr.typeError "value does not support item assignment")

/-- Python d.get(key): AttributeError when the receiver is not a dict,
otherwise an optional value. -/
def jGetMethod (j : JValue) (key : String) : Except PyErr (Option JValue) :=
  match j with
  | JValue.jobj fields => Except.ok (jlookup fields key)
  | _ => Except.error (PyErr.attributeError "object has no attribute get")

/-- Python truthiness of a JSON value. -/
def jtruthy : JValue → Bool
  | JValue.jnull => false
  | JValue.jbool b => b
  | JValue.jnum n => n != 0
  | JValue.jstr s => s != ""
  | JValue.jarr xs => !xs.isEmpty
  | JValue.jobj fs => !fs.isEmpty

/-- Python dict(zip(names, ids)) as a JSON object field list: pairs inserted
left to right, a repeated name keeping its first position and last value. -/
def dict_of_pairs (pairs : List (String × Int)) : List (String × JValue) :=
  pairs.foldl (fun acc p => jsetKey acc p.1 (JValue.jnum p.2)) []

/-- Embedding of map_dataset_name_with_id (src/utils.py lines 210-221).  The
pairs argument is the result of the name/id query sorted by id; doc is the
parsed instructions file.  The ok value is the document written back to the
file; an error means the exception is raised inside the read block, before
the write happens.  Steps follow the source statement by statement: the
truthiness test on instructions(sub instructions).get(dataset_mapping)
optionally resets that entry to a dict holding an empty lidar dict, the
second statement assigns the name-to-id dict to its lidar key (KeyError here
when the dataset_mapping key is absent), and the third statement assigns 0
to the Unknown key of that lidar dict. -/
def map_dataset_name_with_id (pairs : List (String × Int)) (doc : JValue) :
    Except PyErr JValue := do
  let instr0 ← jGetItem doc "instructions"
  let dmOpt ← jGetMethod instr0 "dataset_mapping"
  let doc1 ← (match dmOpt with
    | some dm =>
      if jtruthy dm then do
        let instr1 ← jSetItem instr0 "dataset_mapping"
          (JValue.jobj [("lidar", JValue.jobj [])])
        jSetItem doc "instructions" instr1
      else Except.ok doc
    | Option.none => Except.ok doc)
  let instr2 ← jGetItem doc1 "instructions"
  let dm2 ← jGetItem instr2 "dataset_mapping"
  let dm3 ← jSetItem dm2 "lidar" (JValue.jobj (dict_of_pairs pairs))
  let instr3 ← jSetItem instr2 "dataset_mapping" dm3
  let doc2 ← jSetItem doc1 "instructions" instr3
  let instr4 ← jGetItem doc2 "instructions"
  let dm4 ← jGetItem instr4 "dataset_mapping"
  let lid ← jGetItem dm4 "lidar"
  let lid1 ← jSetItem lid "Unknown" (JValue.jnum 0)
  let dm5 ← jSetItem dm4 "lidar" lid1
  let instr5 ← jSetItem instr4 "dataset_mapping" dm5
  jSetItem doc2 "instructions" instr5

/-- Read a three-deep path in a JSON document. -/
def jpath3 (doc : JValue) (k1 k2 k3 : String) : Except PyErr JValue := do
  let a ← jGetItem doc k1
  let b ← jGetItem a k2
  jGetItem b k3

/-! ## src/utils.py: geometry model for katana, remove_holes, filter_geometry

The geometry algorithms delegate all metric operations (area, bounds,
intersection, buffering, union) to the shapely library.  The embedding is
parametric: a geometry is a shapely-level shape tag over an abstract payload,
and the library operations are fields of an operations structure, so every
theorem below holds for every model of those operations (with the library
facts a theorem needs stated as explicit hypotheses). -/

/-- Shapely geometry shapes relevant to the source: Polygon, MultiPolygon,
GeometryCollection, and everything else (points, lines, empty geometries),
over an abstract polygon payload. -/
inductive Geom (P : Type) where
  | poly (p : P)
  | multi (ps : List P)
  | coll (gs : List (Geom P))
  | other

/-- Bounding box as returned by the shapely bounds property:
(minx, miny, maxx, maxy). -/
structure BBox where
  minx : ℚ
  miny : ℚ
  maxx : ℚ
  maxy : ℚ
deriving DecidableEq, Repr

/-- The shapely operations used by katana (src/utils.py lines 439-473):
area, bounds, the box constructor and geometry.intersection. -/
structure GeomOps (P : Type) where
  area : Geom P → ℚ
  bounds : Geom P → BBox
  mkBox : BBox → Geom P
  inter : Geom P → Geom P → Geom P

/-- Test for isinstance(g, (Polygon, MultiPolygon)). -/
def isPolyOrMultiB {P : Type} : Geom P → Bool
  | Geom.poly _ => true
  | Geom.multi _ => true
  | _ => false

/-- Test for a single-part Polygon. -/
def isPolygonB {P : Type} : Geom P → Bool
  | Geom.poly _ => true
  | _ => false

/-- Test for a MultiPolygon. -/
def isMultiPolygonB {P : Type} : Geom P → Bool
  | Geom.multi _ => true
  | _ => false

/-- The two half boxes katana builds from the bounds of the geometry: split
left to right when height is at least width, top to bottom otherwise
(src/utils.py lines 448-455). -/
def katanaSplitBoxes {P : Type} (ops : GeomOps P) (geometry : Geom P) :
    List (Geom P) :=
  let b := ops.bounds geometry
  let width := b.maxx - b.minx
  let height := b.maxy - b.miny
  if height ≥ width then
    [ops.mkBox ⟨b.minx, b.miny, b.maxx, b.miny + height / 2⟩,
     ops.mkBox ⟨b.minx, b.miny + height / 2, b.maxx, b.maxy⟩]
  else
    [ops.mkBox ⟨b.minx, b.miny, b.minx + width / 2, b.maxy⟩,
     ops.mkBox ⟨b.minx + width / 2, b.miny, b.maxx, b.maxy⟩]

/-- The top-level flattening of katana (src/utils.py lines 466-473): each
MultiPolygon in the result list is replaced by its member polygons. -/
def katanaFlatten {P : Type} (result : List (Geom P)) : List (Geom P) :=
  result.flatMap (fun g =>
    match g with
    | Geom.multi ps => ps.map Geom.poly
    | g1 => [g1])

/-- The member list an intersection result is iterated over: a
GeometryCollection contributes its members (the source replaces a
non-collection c by the singleton list [c]). -/
def geomPieces {P : Type} (g : Geom P) : List (Geom P) :=
  match g with
  | Geom.coll gs => gs
  | g1 => [g1]

/-- The result list accumulated by the two-box loop of katana: for each half
box, intersect, iterate the pieces, and recurse (recur stands for the
recursive call at count + 1) on every Polygon or MultiPolygon piece. -/
def katanaSplitResult {P : Type} (ops : GeomOps P)
    (recur : Geom P → List (Geom P)) (geometry : Geom P) : List (Geom P) :=
  (katanaSplitBoxes ops geometry).flatMap (fun d =>
    ((geomPieces (ops.inter geometry d)).filter isPolyOrMultiB).flatMap recur)

/-- One unfolding of the body of katana (src/utils.py lines 439-473) with the
recursive occurrence abstracted as recur (the source calls
katana(e, threshold, count + 1) there): return the geometry alone when its
area is at most the threshold or the depth cap of 250 is reached; otherwise
build the result list from the two half boxes and flatten multi-part entries
only at the top level (count = 0). -/
def katanaBody {P : Type} (ops : GeomOps P) (recur : Geom P → List (Geom P))
    (geometry : Geom P) (threshold : ℚ) (count : Nat) : List (Geom P) :=
  if ops.area geometry ≤ threshold ∨ count = 250 then [geometry]
  else if 0 < count then katanaSplitResult ops recur geometry
  else katanaFlatten (katanaSplitResult ops recur geometry)

/-- Fuel-indexed embedding of katana.  The source recursion is bounded by the
depth cap (count grows by one per level and the cap returns at 250), so with
fuel at least 250 - count the fuel branch is never taken; this is proved in
the theorems below.  Out of fuel, the non-base branch returns the empty list
as a marker. -/
def katanaF {P : Type} (ops : GeomOps P) :
    Nat → Geom P → ℚ → Nat → List (Geom P)
  | 0, geometry, threshold, count =>
    if ops.area geometry ≤ threshold ∨ count = 250 then [geometry] else []
  | fuel + 1, geometry, threshold, count =>
    katanaBody ops (fun e => katanaF ops fuel e threshold (count + 1))
      geometry threshold count

/-- Embedding of katana (src/utils.py lines 439-473): the fuel-indexed
version run with the fuel that the depth cap guarantees is sufficient. -/
def katana {P : Type} (ops : GeomOps P) (geometry : Geom P) (threshold : ℚ)
    (count : Nat) : List (Geom P) :=
  katanaF ops (250 - count) geometry threshold count

/-! ### remove_holes and filter_geometry (src/utils.py lines 342-411) -/

/-- A concrete polygon as an exterior ring with a list of interior rings,
over an abstract ring payload, mirroring the shapely accessors used by
remove_holes (geom.exterior, geom.interiors, the Polygon constructor with a
holes argument). -/
structure PolyG (R : Type) where
  exterior : R
  interiors : List R
deriving DecidableEq, Repr

/-- The shapely operations used by remove_holes and filter_geometry:
the area of the polygon spanned by a ring (Polygon(interior).area), the area
of a polygon part, unary_union of a single geometry and of a list of parts,
and the mitre-join buffer. -/
structure ShapeOps (R : Type) where
  ringArea : R → ℚ
  polyArea : PolyG R → ℚ
  union1 : Geom (PolyG R) → Geom (PolyG R)
  unionList : List (Geom (PolyG R)) → Geom (PolyG R)
  buffer : Geom (PolyG R) → ℚ → Geom (PolyG R)

/-- The EPS constant of src/utils.py (line 43). -/
def EPS : ℚ := 1 / 10

/-- The CATCHMENT_RESOLUTION constant of src/utils.py (line 42). -/
def CATCHMENT_RESOLUTION : ℚ := 30

/-- The interior rings kept by remove_holes for one polygon part: those whose
spanned area is strictly greater than the keep threshold (src/utils.py lines
360-363), in order. -/
def keep_large_rings {R : Type} (ops : ShapeOps R) (keep_threshold : ℚ)
    (g : PolyG R) : PolyG R :=
  ⟨g.exterior, g.interiors.filter (fun i => keep_threshold < ops.ringArea i)⟩

/-- The per-part body of remove_holes (src/utils.py lines 357-368): rebuild
the part from its exterior and its kept interior rings, then apply
buffer(0, mitre). -/
def fill_small_holes {R : Type} (ops : ShapeOps R) (keep_threshold : ℚ)
    (g : PolyG R) : Geom (PolyG R) :=
  ops.buffer (Geom.poly (keep_large_rings ops keep_threshold g)) 0

/-- Embedding of remove_holes (src/utils.py lines 342-370).  A Polygon is
wrapped into a singleton MultiPolygon; a MultiPolygon contributes its parts;
iterating the members of a GeometryCollection works in Python as long as
every member is a Polygon (otherwise the interiors attribute access raises),
and a geometry without a geoms attribute raises.  Each part keeps only its
large interior rings and the parts are reassembled by unary_union. -/
def remove_holes {R : Type} (ops : ShapeOps R) (polygon : Geom (PolyG R))
    (keep_threshold : ℚ) : Except PyErr (Geom (PolyG R)) := do
  let parts ← (match polygon with
    | Geom.poly p => Except.ok [p]
    | Geom.multi ps => Except.ok ps
    | Geom.coll gs => gs.mapM (fun g =>
        match g with
        | Geom.poly p => Except.ok p
        | _ => Except.error (PyErr.attributeError "object has no attribute interiors"))
    | Geom.other => Except.error (PyErr.attributeError "object has no attribute geoms"))
  Except.ok (ops.unionList (parts.map (fill_small_holes ops keep_threshold)))

/-- The polygon-area gate of filter_geometry (src/utils.py lines 394-398): a
single Polygon below the polygon threshold raises the assertion, a Polygon at
or above it passes unchanged, and a MultiPolygon keeps exactly the parts
strictly above the threshold.  On a GeometryCollection the source iterates
geometry.geoms and hands the kept members to the MultiPolygon constructor,
which accepts only polygons (the source filters by area before constructing;
the claims never reach this branch on a collection); a geometry without geoms
raises. -/
def area_gate {R : Type} (ops : ShapeOps R) (polygon_threshold : ℚ)
    (g : Geom (PolyG R)) : Except PyErr (Geom (PolyG R)) :=
  match g with
  | Geom.poly p =>
    if polygon_threshold ≤ ops.polyArea p then Except.ok (Geom.poly p)
    else Except.error (PyErr.assertionError "Input geometry is smaller than threshold.")
  | Geom.multi ps =>
    Except.ok (Geom.multi (ps.filter (fun p => polygon_threshold < ops.polyArea p)))
  | Geom.coll gs => do
    let ps ← gs.mapM (fun x =>
      match x with
      | Geom.poly p => Except.ok p
      | _ => Except.error (PyErr.valueError "non-polygon in MultiPolygon constructor"))
    Except.ok (Geom.multi (ps.filter (fun p => polygon_threshold < ops.polyArea p)))
  | Geom.other => Except.error (PyErr.attributeError "object has no attribute geoms")

/-- The spike-removal and boundary-cleaning buffer sequences of
filter_geometry (src/utils.py lines 399-407): erode by EPS, dilate by twice
EPS, erode by EPS; then with eps = resolution / 2 - EPS, dilate, erode twice
eps, dilate. -/
def despike_and_smooth {R : Type} (ops : ShapeOps R) (resolution : ℚ)
    (g : Geom (PolyG R)) : Geom (PolyG R) :=
  let g1 := ops.buffer (ops.buffer (ops.buffer g (-EPS)) (2 * EPS)) (-EPS)
  let e := resolution / 2 - EPS
  ops.buffer (ops.buffer (ops.buffer g1 e) (-(e * 2))) e

/-- Embedding of filter_geometry (src/utils.py lines 374-411): union the
input (a geometry that is not a Polygon, MultiPolygon or GeometryCollection
raises ValueError; the GeoSeries branch is the same union and is not
modelled separately), apply the polygon-area gate, remove spikes and clean
the boundary with the two buffer sequences, then remove small holes. -/
def filter_geometry {R : Type} (ops : ShapeOps R) (geometry : Geom (PolyG R))
    (resolution polygon_threshold hole_threshold : ℚ) :
    Except PyErr (Geom (PolyG R)) := do
  let g ← (match geometry with
    | Geom.other => Except.error (PyErr.valueError "geometry is not a valid type")
    | g0 => Except.ok (ops.union1 g0))
  let g2 ← area_gate ops polygon_threshold g
  remove_holes ops (despike_and_smooth ops resolution g2) hole_threshold

/-! ## Concrete instances used by witnesses and counterexamples -/

/-- Decide whether an Except value is a success. -/
def isOkE {α : Type} (e : Except PyErr α) : Bool :=
  match e with
  | Except.ok _ => true
  | Except.error _ => false

/-- An environment with the data directories set and LAND_FILE unset. -/
def envNoLand : String → Option String := fun k =>
  if k = "DATA_DIR" then some "datastorage"
  else if k = "DEM_DIR" then some "hydro_dem"
  else Option.none

/-- A small database state: catchment ids 1, 2, 3 and one sdc id 10. -/
def dbEx : RunDb :=
  { sdc_ids := [10],
    catchment_ids := [1, 2, 3],
    splitSub := fun _ => [],
    areaIds := fun _ => [] }

/-- Extent gate that accepts every catchment. -/
def withinAll : Int → Bool := fun _ => true

/-- Boundary-file preparation that always succeeds. -/
def prepOk : Int → StepResult Unit := fun _ => StepResult.ok ()

/-- A single_process model: catchment 1 has no lidar data (returns None),
every other catchment returns a nonempty instructions dict. -/
def procNoLidar : Int → StepResult (Option Instr) := fun i =>
  if i = 1 then StepResult.ok Option.none
  else StepResult.ok (some [("instructions", "x")])

/-- A single_process model that raises on every catchment. -/
def procExn : Int → StepResult (Option Instr) := fun _ =>
  StepResult.exn (PyErr.valueError "single_process failed")

/-- A store_hydro_to_db tail (file checks and DemRecord upsert) that always
succeeds. -/
def storeOkRest : Instr → StepResult Unit := fun _ => StepResult.ok ()

/-- Example name/id pairs as returned by the dataset-table query. -/
def pairsEx : List (String × Int) := [("ds_a", 1), ("ds_b", 2)]

/-- An instructions document whose dataset_mapping key is present with the
value null. -/
def docNull : JValue :=
  JValue.jobj [("instructions", JValue.jobj [("dataset_mapping", JValue.jnull)])]

/-- The instructions fields of a document with a populated dataset_mapping. -/
def instrFsMapped : List (String × JValue) :=
  [("dataset_mapping", JValue.jobj [("lidar", JValue.jobj [("Old", JValue.jnum 7)])])]

/-- An instructions document with a populated (truthy) dataset_mapping. -/
def docMapped : JValue := JValue.jobj [("instructions", JValue.jobj instrFsMapped)]

/-- A crawled item for the upsert witness. -/
def itemW : DatasetItem :=
  { name := "NZ20_Canterbury",
    describe := "second crawl",
    survey_start_date := "2020-01-01",
    survey_end_date := "2020-02-01",
    point_cloud_density := "4",
    datum := "NZVD2016",
    meta_path := "m.xml",
    meta_source := "u",
    extent_path := "e.kml",
    tile_path := "t.zip",
    geometry := "g" }

/-- A pre-existing Dataset row for the same name, with an older crawl. -/
def rowOld : DatasetRow :=
  { row_from_item itemW "2023-05-05" with id := 5, describe := "first crawl" }

/-- A one-row Dataset table holding the pre-existing row. -/
def tblW : List DatasetRow := [rowOld]

/-- A katana operations model over rational area tags: every geometry has the
unit bounding box, intersection is the identity, and a box carries its own
area. -/
def opsW : GeomOps ℚ where
  area := fun g =>
    match g with
    | Geom.poly a => a
    | Geom.multi ps => ps.sum
    | Geom.coll _ => 0
    | Geom.other => 0
  bounds := fun _ => ⟨0, 0, 1, 1⟩
  mkBox := fun b => Geom.poly ((b.maxx - b.minx) * (b.maxy - b.miny))
  inter := fun g _ => g

/-- A shape operations model over rational rings: a ring is its own spanned
area, a polygon's area is its exterior tag, union of one geometry and buffer
are the identity, and union of a part list is its sole member when it is a
singleton. -/
def opsR : ShapeOps ℚ where
  ringArea := fun r => r
  polyArea := fun g => g.exterior
  union1 := fun g => g
  unionList := fun l =>
    match l with
    | [x] => x
    | _ => Geom.other
  buffer := fun g _ => g

/-- The two interior rings of the hole-removal witness: 500 and 2000000. -/
def ringsW : List ℚ := [500, 2000000]

/-! ## Theorems -/

/-- C8: boolean coercion of configuration values: every string whose
lower-casing is in the set true/t/1 yields true, every string whose
lower-casing is in false/f/0 yields false, and any other string raises
ValueError. -/
theorem cast_str_bool_spec (s : String) :
    (pyLower s ∈ truth_values → cast_str_bool s = Except.ok true)
  ∧ (pyLower s ∈ false_values → cast_str_bool s = Except.ok false)
  ∧ (pyLower s ∉ truth_values → pyLower s ∉ false_values →
      ∃ m, cast_str_bool s = Except.error (PyErr.valueError m)) := by
  refine ⟨fun h => ?_, fun h => ?_, fun h1 h2 => ?_⟩
  · simp [cast_str_bool, h]
  · have h1 : pyLower s ∉ truth_values := by
      have : pyLower s = "false" ∨ pyLower s = "f" ∨ pyLower s = "0" := by
        simpa [false_values] using h
      rcases this with h3 | h3 | h3 <;> simp [truth_values, h3]
    rw [cast_str_bool, if_neg h1, if_pos h]
  · rw [cast_str_bool, if_neg h1, if_neg h2]
    exact ⟨_, rfl⟩

/-- Witness for C8 at the concrete inputs TrUe, F, yes. -/
theorem cast_str_bool_spec_witness :
    cast_str_bool "TrUe" = Except.ok true
  ∧ cast_str_bool "F" = Except.ok false
  ∧ isOkE (cast_str_bool "yes") = false := by
  refine ⟨(cast_str_bool_spec "TrUe").1 (by decide),
          (cast_str_bool_spec "F").2.1 (by decide), ?_⟩
  obtain ⟨m, hm⟩ := (cast_str_bool_spec "yes").2.2 (by decide) (by decide)
  simp [hm, isOkE]

/-- C9: in the special-directory branch, a count mismatch between produced
outputs and issued commands always fails the run, the renamed inputs are
restored to their original .laz extension exactly when zero outputs were
produced, and for a nonzero mismatched count the src directory is left with
the renamed .las files (no restoration). -/
theorem special_dir_rollback (laz las : List String) (n : Nat)
    (hmis : laz.length ≠ n) :
    (∀ out, special_dir_finalize laz las n ≠ Except.ok out)
  ∧ (laz.length = 0 →
      special_dir_finalize laz las n = Except.error (restore_laz_names las))
  ∧ (laz.length ≠ 0 → special_dir_finalize laz las n = Except.error las) := by
  have hsf : special_dir_finalize laz las n =
      if laz.length = 0 then Except.error (restore_laz_names las)
      else Except.error las := by
    rw [special_dir_finalize, if_pos hmis]
  refine ⟨fun out => ?_, fun h0 => ?_, fun h0 => ?_⟩
  · rw [hsf]
    by_cases h0 : laz.length = 0 <;> simp [h0]
  · rw [hsf, if_pos h0]
  · rw [hsf, if_neg h0]

/-- Witness for C9: two commands issued, zero outputs produced, two renamed
inputs restored. -/
theorem special_dir_rollback_witness :
    special_dir_finalize [] ["a.las", "b.las"] 2 =
      Except.error ["a.laz", "b.laz"] := by
  have h := (special_dir_rollback [] ["a.las", "b.las"] 2 (by decide)).2.1 rfl
  rw [h]
  rfl

/-- C1 (code bug): the docstring of run defines a negative catch_id as
selecting every catchment in the catchment table, but a negative int is not
None, so it enters the explicit-id validation branch, is found in neither
the catchment nor the sdc table, and is ignored with a warning: the selected
set is empty, not the full catchment set.  The full-catchment branch is
reachable only with catch_id None and area None, where the source raises
TypeError on None < 0 first. -/
theorem run_negative_id_selects_nothing :
    run_select dbEx (CatchIdArg.intArg (-1)) Option.none = Except.ok []
  ∧ dbEx.catchment_ids = [1, 2, 3]
  ∧ run_select dbEx CatchIdArg.noneArg Option.none =
      Except.error (PyErr.typeError
        "unsupported comparison between instances of NoneType and int") := by
  refine ⟨?_, rfl, rfl⟩
  rfl

/-- C3 (code bug): with DATA_DIR and DEM_DIR set and LAND_FILE unset,
gen_instructions fails with the missing-configuration KeyError raised by
get_env_variable (allow_empty defaults to False) instead of omitting the
land path; the guard (is not None) around the land entry can never see None
because get_env_variable either raises or returns a string. -/
theorem gen_instructions_requires_land_file :
    gen_instructions_data_paths envNoLand 1394 =
      Except.error (PyErr.keyError
        "Environment variable LAND_FILE not set, and allow_empty is False")
  ∧ get_env_variable_str envNoLand "DATA_DIR" Option.none false =
      Except.ok "datastorage" := by
  exact ⟨rfl, rfl⟩

/-- C2 counterexample: a batch of catchments 1 and 2 where catchment 1 has no
lidar data (single_process returns None).  The claim says the failure is
caught and the loop continues; in the source store_hydro_to_db is outside
the try block, len(None) raises TypeError, and the whole batch aborts, so
catchment 2 is never processed and no failure list is returned. -/
theorem run_batch_none_aborts :
    run_batch (some 30) withinAll prepOk procNoLidar
        (store_hydro_to_db storeOkRest) [1, 2] [] =
      Except.error (PyErr.typeError "object of type NoneType has no len") := by
  rfl

/-- C2 amended: inside the batch loop only the single_process call is wrapped
in try/except, so its exceptions append the catchment to the failure list
and the loop continues; an exception raised by store_hydro_to_db - in
particular the TypeError from len(None) when single_process returned None
because the catchment has no lidar data - escapes and aborts the batch. -/
theorem run_batch_amended (resolution : Option Int) (within : Int → Bool)
    (prep : Int → StepResult Unit) (proc : Int → StepResult (Option Instr))
    (store : Option Instr → StepResult Unit) (i : Int) (rest failed : List Int)
    (hres : resolutionTruthy resolution = true) (hwithin : within i = true)
    (hprep : prep i = StepResult.ok ()) :
    (∀ e, proc i = StepResult.exn e →
      run_batch resolution within prep proc store (i :: rest) failed =
        run_batch resolution within prep proc store rest (failed ++ [i]))
  ∧ (∀ v e, proc i = StepResult.ok v → store v = StepResult.exn e →
      run_batch resolution within prep proc store (i :: rest) failed =
        Except.error e)
  ∧ (∀ tail, store_hydro_to_db tail Option.none =
      StepResult.exn (PyErr.typeError "object of type NoneType has no len")) := by
  refine ⟨fun e he => ?_, fun v e hv hs => ?_, fun tail => rfl⟩
  · simp [run_batch, hres, hwithin, hprep, he]
  · simp [run_batch, hres, hwithin, hprep, hv, hs]

/-- Witness for C2 amended: a failing single_process on catchment 5 is
recorded in the failure list and the batch finishes. -/
theorem run_batch_amended_witness :
    run_batch (some 30) withinAll prepOk procExn
        (store_hydro_to_db storeOkRest) [5] [] = Except.ok [5] := by
  have h := (run_batch_amended (some 30) withinAll prepOk procExn
      (store_hydro_to_db storeOkRest) 5 [] [] rfl rfl rfl).1
      (PyErr.valueError "single_process failed") rfl
  rw [h]
  rfl


/-- Rows named n in an appended table split over the append. -/
theorem rowsNamed_append (t1 t2 : List DatasetRow) (n : String) :
    rowsNamed (t1 ++ t2) n = rowsNamed t1 n ++ rowsNamed t2 n := by
  simp [rowsNamed, List.filter_append]

/-- Deleting by name removes every row with that name. -/
theorem rowsNamed_delete (t : List DatasetRow) (n : String) :
    rowsNamed (delete_table_by_name t n) n = [] := by
  rw [rowsNamed, List.filter_eq_nil_iff]
  intro a ha
  rw [delete_table_by_name, List.mem_filter] at ha
  simpa using ha.2

/-- A one-row table with a matching name filters to itself. -/
theorem rowsNamed_singleton (r : DatasetRow) (n : String) (h : r.name = n) :
    rowsNamed [r] n = [r] := by
  simp [rowsNamed, List.filter_singleton, h]

/-- The fresh-id expression of item_completed equals one more than the table
maximum whenever a maximum exists. -/
theorem new_dataset_id_of_max (table : List DatasetRow) (m : Int)
    (hm : get_max_value table = some m) : new_dataset_id table = m + 1 := by
  rw [new_dataset_id, hm]
  by_cases h : m = 0 <;> simp [h]

/-- The fresh-id expression of item_completed is 1 on an empty maximum. -/
theorem new_dataset_id_of_empty (table : List DatasetRow)
    (hm : get_max_value table = Option.none) : new_dataset_id table = 1 := by
  rw [new_dataset_id, hm]

/-- C4: upserting a crawled item keyed by name preserves uniqueness and
identity: afterwards the table has exactly one row for that name; when a row
with the name existed, the surviving row is upsert_row_existing, which keeps
the previous id and created_at and takes every other field from the new
crawl; when none existed, the surviving row is upsert_row_new, whose id is
one greater than the current table maximum, or 1 when the table is empty. -/
theorem item_completed_upsert (table : List DatasetRow) (item : DatasetItem)
    (ts : String) (huniq : (rowsNamed table item.name).length ≤ 1) :
    (rowsNamed (item_completed table item ts) item.name).length = 1
  ∧ (∀ prev, rowsNamed table item.name = [prev] →
      rowsNamed (item_completed table item ts) item.name =
        [upsert_row_existing item ts prev]
    ∧ (upsert_row_existing item ts prev).id = prev.id
    ∧ (upsert_row_existing item ts prev).created_at = prev.created_at)
  ∧ (rowsNamed table item.name = [] →
      rowsNamed (item_completed table item ts) item.name = [upsert_row_new table item ts]
    ∧ (∀ m, get_max_value table = some m → (upsert_row_new table item ts).id = m + 1)
    ∧ (get_max_value table = Option.none → (upsert_row_new table item ts).id = 1)) := by
  cases hmatch : rowsNamed table item.name with
  | nil =>
    have hic : item_completed table item ts = table ++ [upsert_row_new table item ts] := by
      unfold item_completed
      rw [hmatch]
    have hrows : rowsNamed (item_completed table item ts) item.name =
        [upsert_row_new table item ts] := by
      rw [hic, rowsNamed_append, hmatch,
        rowsNamed_singleton (upsert_row_new table item ts) item.name rfl]
      rfl
    refine ⟨by rw [hrows]; rfl, fun prev hprev => ?_, fun _ => ?_⟩
    · exact absurd hprev (by simp)
    · exact ⟨hrows, fun m hm => new_dataset_id_of_max table m hm,
        fun hm => new_dataset_id_of_empty table hm⟩
  | cons prev rest =>
    have hrest : rest = [] := by
      rw [hmatch] at huniq
      simpa using huniq
    subst hrest
    have hic : item_completed table item ts =
        delete_table_by_name table item.name ++ [upsert_row_existing item ts prev] := by
      unfold item_completed
      rw [hmatch]
    have hrows : rowsNamed (item_completed table item ts) item.name =
        [upsert_row_existing item ts prev] := by
      rw [hic, rowsNamed_append, rowsNamed_delete,
        rowsNamed_singleton (upsert_row_existing item ts prev) item.name rfl]
      rfl
    refine ⟨by rw [hrows]; rfl, fun prev2 hprev2 => ?_, fun hnil => ?_⟩
    · have hp : prev = prev2 := by
        injection hprev2
      subst hp
      exact ⟨hrows, rfl, rfl⟩
    · exact absurd hnil (by simp)

/-- Witness for C4: re-crawling the name already present in the one-row table
leaves exactly one row for it, carrying the old id 5 and old created_at with
the new fields. -/
theorem item_completed_upsert_witness :
    rowsNamed (item_completed tblW itemW "2024-06-07") itemW.name =
      [upsert_row_existing itemW "2024-06-07" rowOld]
  ∧ (upsert_row_existing itemW "2024-06-07" rowOld).id = 5
  ∧ (upsert_row_existing itemW "2024-06-07" rowOld).created_at = "2023-05-05" := by
  have h := (item_completed_upsert tblW itemW "2024-06-07" (by decide)).2.1 rowOld (by decide)
  exact ⟨h.1, by rw [h.2.1]; rfl, by rw [h.2.2]; rfl⟩

/-- Bind on a success value steps to the continuation. -/
theorem except_bind_ok {α β : Type} (a : α) (f : α → Except PyErr β) :
    (Except.ok a >>= f) = f a := rfl

/-- Bind on a raised exception propagates it. -/
theorem except_bind_err {α β : Type} (e : PyErr) (f : α → Except PyErr β) :
    ((Except.error e : Except PyErr α) >>= f) = Except.error e := rfl

/-- Looking up the key just assigned yields the assigned value. -/
theorem jlookup_jsetKey_self (fs : List (String × JValue)) (k : String) (v : JValue) :
    jlookup (jsetKey fs k v) k = some v := by
  induction fs with
  | nil => simp [jsetKey, jlookup]
  | cons p rest ih =>
    by_cases h : p.1 = k
    · simp [jsetKey, jlookup, h]
    · simp [jsetKey, jlookup, h, ih]

/-- Subscripting an object on the key just assigned yields the value. -/
theorem jGetItem_set (fs : List (String × JValue)) (k : String) (v : JValue) :
    jGetItem (JValue.jobj (jsetKey fs k v)) k = Except.ok v := by
  simp [jGetItem, jlookup_jsetKey_self]

/-- C10 counterexample: a document whose instructions object carries the
dataset_mapping key with value null.  The key is present, yet the call does
not succeed: null is falsy, so the reset is skipped, and the item assignment
on null raises TypeError; so the claim that a present key always yields the
name-to-id mapping fails. -/
theorem map_dataset_null_fails :
    jlookup [("dataset_mapping", JValue.jnull)] "dataset_mapping" = some JValue.jnull
  ∧ map_dataset_name_with_id pairsEx docNull =
      Except.error (PyErr.typeError "value does not support item assignment") := by
  exact ⟨rfl, rfl⟩

/-- Reading a key with the get method on an object yields its lookup. -/
theorem jGetMethod_obj (fs : List (String × JValue)) (k : String) :
    jGetMethod (JValue.jobj fs) k = Except.ok (jlookup fs k) := rfl

/-- Assigning a key on an object succeeds with the updated field list. -/
theorem jSetItem_obj (fs : List (String × JValue)) (k : String) (v : JValue) :
    jSetItem (JValue.jobj fs) k v = Except.ok (JValue.jobj (jsetKey fs k v)) := rfl

/-- C10 amended: map_dataset_name_with_id raises KeyError (before the file is
written back) when the instructions object lacks the dataset_mapping key;
when the key is present with a truthy value or a dict value, the call
succeeds and the resulting dataset_mapping.lidar object is exactly the
name-to-id pairs of the dataset table followed by the reserved Unknown entry
mapped to 0; a present key with a falsy non-dict value (such as null) instead
raises TypeError. -/
theorem map_dataset_amended (pairs : List (String × Int))
    (docFs instrFs : List (String × JValue))
    (hins : jlookup docFs "instructions" = some (JValue.jobj instrFs)) :
    (jlookup instrFs "dataset_mapping" = Option.none →
      map_dataset_name_with_id pairs (JValue.jobj docFs) =
        Except.error (PyErr.keyError "dataset_mapping"))
  ∧ (∀ dm, jlookup instrFs "dataset_mapping" = some dm →
      (jtruthy dm = true ∨ ∃ dfs, dm = JValue.jobj dfs) →
      ∃ res, map_dataset_name_with_id pairs (JValue.jobj docFs) = Except.ok res
        ∧ jpath3 res "instructions" "dataset_mapping" "lidar" =
            Except.ok (JValue.jobj
              (jsetKey (dict_of_pairs pairs) "Unknown" (JValue.jnum 0)))) := by
  have h0 : jGetItem (JValue.jobj docFs) "instructions" =
      Except.ok (JValue.jobj instrFs) := by
    simp [jGetItem, hins]
  constructor
  · intro hnone
    have hdm2 : jGetItem (JValue.jobj instrFs) "dataset_mapping" =
        Except.error (PyErr.keyError "dataset_mapping") := by
      simp [jGetItem, hnone]
    simp only [map_dataset_name_with_id, h0, jGetMethod_obj, hnone, hdm2,
      except_bind_ok, except_bind_err]
  · intro dm hdm hok
    have hdm0 : jGetItem (JValue.jobj instrFs) "dataset_mapping" = Except.ok dm := by
      simp [jGetItem, hdm]
    by_cases ht : jtruthy dm = true
    · simp only [map_dataset_name_with_id, h0, jGetMethod_obj, hdm, ht, if_true,
        jSetItem_obj, jGetItem_set, except_bind_ok]
      refine ⟨_, rfl, ?_⟩
      simp only [jpath3, jGetItem_set, except_bind_ok]
    · have hobj : ∃ dfs, dm = JValue.jobj dfs := by
        rcases hok with h | h
        · exact absurd h ht
        · exact h
      obtain ⟨dfs, rfl⟩ := hobj
      simp only [map_dataset_name_with_id, h0, jGetMethod_obj, hdm, ht,
        Bool.not_eq_true, Bool.false_eq_true, if_false, ite_false,
        hdm0, jSetItem_obj, jGetItem_set, except_bind_ok]
      refine ⟨_, rfl, ?_⟩
      simp only [jpath3, jGetItem_set, except_bind_ok]

/-- Witness for C10 amended at a document whose dataset_mapping is populated
(truthy), with two dataset pairs. -/
theorem map_dataset_amended_witness :
    isOkE (map_dataset_name_with_id pairsEx docMapped) = true := by
  obtain ⟨res, hres, hpath⟩ := (map_dataset_amended pairsEx
      [("instructions", JValue.jobj instrFsMapped)] instrFsMapped rfl).2
      (JValue.jobj [("lidar", JValue.jobj [("Old", JValue.jnum 7)])]) rfl (Or.inl rfl)
  have hdoc : docMapped = JValue.jobj [("instructions", JValue.jobj instrFsMapped)] := rfl
  rw [hdoc, hres]
  rfl

/-- The base case of the katana body: at or below the threshold, or at the
depth cap, the geometry is returned as-is. -/
theorem katanaBody_base {P : Type} (ops : GeomOps P)
    (recur : Geom P → List (Geom P)) (g : Geom P) (thr : ℚ) (c : Nat)
    (h : ops.area g ≤ thr ∨ c = 250) :
    katanaBody ops recur g thr c = [g] := by
  unfold katanaBody
  rw [if_pos h]

/-- One-step unfolding of the fuel-indexed katana at a successor fuel. -/
theorem katanaF_succ {P : Type} (ops : GeomOps P) (fuel : Nat) (g : Geom P)
    (thr : ℚ) (c : Nat) :
    katanaF ops (fuel + 1) g thr c =
      katanaBody ops (fun e => katanaF ops fuel e thr (c + 1)) g thr c := rfl

/-- The base case of the fuel-indexed katana holds for every fuel value. -/
theorem katanaF_base {P : Type} (ops : GeomOps P) (fuel : Nat) (g : Geom P)
    (thr : ℚ) (c : Nat) (h : ops.area g ≤ thr ∨ c = 250) :
    katanaF ops fuel g thr c = [g] := by
  cases fuel with
  | zero =>
    simp only [katanaF]
    rw [if_pos h]
  | succ k =>
    simp only [katanaF]
    exact katanaBody_base ops _ g thr c h

/-- Depth boundedness of katana: any two fuel budgets of at least 250 - count
compute the same result, so the recursion never needs depth beyond the cap of
250. -/
theorem katanaF_fuel_irrel {P : Type} (ops : GeomOps P) (thr : ℚ) :
    ∀ (f1 f2 : Nat) (g : Geom P) (c : Nat), c ≤ 250 →
      250 - c ≤ f1 → 250 - c ≤ f2 →
      katanaF ops f1 g thr c = katanaF ops f2 g thr c := by
  intro f1
  induction f1 with
  | zero =>
    intro f2 g c hc h1 h2
    have hc250 : c = 250 := by omega
    rw [katanaF_base ops 0 g thr c (Or.inr hc250),
        katanaF_base ops f2 g thr c (Or.inr hc250)]
  | succ k ih =>
    intro f2 g c hc h1 h2
    by_cases hb : ops.area g ≤ thr ∨ c = 250
    · rw [katanaF_base ops _ g thr c hb, katanaF_base ops f2 g thr c hb]
    · have hne : c ≠ 250 := fun h => hb (Or.inr h)
      cases f2 with
      | zero => omega
      | succ m =>
        simp only [katanaF]
        have hfun : (fun e => katanaF ops k e thr (c + 1)) =
            (fun e => katanaF ops m e thr (c + 1)) := by
          funext e
          exact ih m e (c + 1) (by omega) (by omega) (by omega)
        rw [hfun]

/-- Faithfulness of the embedding: for every reachable count (at most 250),
katana satisfies exactly the recursion of the source, with the recursive
occurrence at count + 1. -/
theorem katana_source_step {P : Type} (ops : GeomOps P) (g : Geom P) (thr : ℚ)
    (c : Nat) (hc : c ≤ 250) :
    katana ops g thr c =
      katanaBody ops (fun e => katana ops e thr (c + 1)) g thr c := by
  by_cases hb : ops.area g ≤ thr ∨ c = 250
  · rw [katana, katanaF_base ops _ g thr c hb, katanaBody_base ops _ g thr c hb]
  · have hne : c ≠ 250 := fun h => hb (Or.inr h)
    have hstep : 250 - c = (250 - (c + 1)) + 1 := by omega
    rw [katana, hstep]
    rfl

/-- Every element of the split-and-recurse result list is a Polygon or
MultiPolygon, provided the recursion preserves that shape. -/
theorem katanaSplitResult_mem {P : Type} (ops : GeomOps P)
    (recur : Geom P → List (Geom P)) (geometry : Geom P)
    (hrec : ∀ e, isPolyOrMultiB e = true → ∀ x ∈ recur e, isPolyOrMultiB x = true) :
    ∀ x ∈ katanaSplitResult ops recur geometry, isPolyOrMultiB x = true := by
  intro x hx
  rw [katanaSplitResult, List.mem_flatMap] at hx
  obtain ⟨d, hd, hx⟩ := hx
  rw [List.mem_flatMap] at hx
  obtain ⟨e, he, hx⟩ := hx
  exact hrec e (List.mem_filter.mp he).2 x hx

/-- Flattening a list of Polygons and MultiPolygons leaves only Polygons. -/
theorem katanaFlatten_all_poly {P : Type} (l : List (Geom P))
    (h : ∀ x ∈ l, isPolyOrMultiB x = true) :
    ∀ y ∈ katanaFlatten l, isPolygonB y = true := by
  intro y hy
  rw [katanaFlatten, List.mem_flatMap] at hy
  obtain ⟨g, hg, hyg⟩ := hy
  have hgp := h g hg
  cases g with
  | poly p =>
    have : y = Geom.poly p := by simpa using hyg
    subst this
    rfl
  | multi ps =>
    rw [List.mem_map] at hyg
    obtain ⟨q, hq, rfl⟩ := hyg
    rfl
  | coll gs => exact absurd hgp (by simp [isPolyOrMultiB])
  | other => exact absurd hgp (by simp [isPolyOrMultiB])

/-- Every element produced by the fuel-indexed katana from a Polygon or
MultiPolygon input is itself a Polygon or MultiPolygon. -/
theorem katanaF_all_polymulti {P : Type} (ops : GeomOps P) (thr : ℚ) :
    ∀ (fuel : Nat) (g : Geom P) (c : Nat), isPolyOrMultiB g = true →
      ∀ x ∈ katanaF ops fuel g thr c, isPolyOrMultiB x = true := by
  intro fuel
  induction fuel with
  | zero =>
    intro g c hg x hx
    by_cases hb : ops.area g ≤ thr ∨ c = 250
    · rw [katanaF_base ops 0 g thr c hb] at hx
      have : x = g := by simpa using hx
      subst this
      exact hg
    · simp only [katanaF] at hx
      rw [if_neg hb] at hx
      simp at hx
  | succ k ih =>
    intro g c hg x hx
    by_cases hb : ops.area g ≤ thr ∨ c = 250
    · rw [katanaF_base ops _ g thr c hb] at hx
      have : x = g := by simpa using hx
      subst this
      exact hg
    · simp only [katanaF] at hx
      unfold katanaBody at hx
      rw [if_neg hb] at hx
      by_cases hcnt : 0 < c
      · rw [if_pos hcnt] at hx
        exact katanaSplitResult_mem ops _ g
          (fun e he y hy => ih e (c + 1) he y hy) x hx
      · rw [if_neg hcnt] at hx
        have hpoly := katanaFlatten_all_poly _
          (katanaSplitResult_mem ops _ g (fun e he y hy => ih e (c + 1) he y hy)) x hx
        cases x <;> simp_all [isPolygonB, isPolyOrMultiB]

/-- C5: for every polygon and positive threshold, katana terminates within
the depth cap: any fuel budget of at least 250 - count computes the same
result (the recursion never exceeds depth 250); every part whose area is at
or below the threshold, or reached at the depth cap, is returned as-is; and
the top-level call (count = 0) on a polygon returns a list of single
polygons, so it contains no MultiPolygon - multi-part results are flattened
exactly once, at the top level. -/
theorem katana_spec {P : Type} (ops : GeomOps P) (p : P) (thr : ℚ)
    (hthr : 0 < thr) :
    (∀ f1 f2 g c, c ≤ 250 → 250 - c ≤ f1 → 250 - c ≤ f2 →
        katanaF ops f1 g thr c = katanaF ops f2 g thr c)
  ∧ (∀ g c, ops.area g ≤ thr ∨ c = 250 → katana ops g thr c = [g])
  ∧ (∀ y ∈ katana ops (Geom.poly p) thr 0, isPolygonB y = true)
  ∧ (katana ops (Geom.poly p) thr 0).all isPolygonB = true := by
  have hbase : ∀ g c, ops.area g ≤ thr ∨ c = 250 → katana ops g thr c = [g] := by
    intro g c h
    rw [katana]
    exact katanaF_base ops _ g thr c h
  have htop : ∀ y ∈ katana ops (Geom.poly p) thr 0, isPolygonB y = true := by
    intro y hy
    by_cases hb : ops.area (Geom.poly p) ≤ thr ∨ (0 : Nat) = 250
    · rw [hbase _ _ hb] at hy
      have : y = Geom.poly p := by simpa using hy
      subst this
      rfl
    · rw [katana, show (250 : Nat) - 0 = 249 + 1 from rfl, katanaF_succ] at hy
      unfold katanaBody at hy
      rw [if_neg hb, if_neg (by omega : ¬ (0 : Nat) < 0)] at hy
      exact katanaFlatten_all_poly _
        (katanaSplitResult_mem ops _ _
          (fun e he x hx => katanaF_all_polymulti ops thr 249 e 1 he x hx)) y hy
  refine ⟨katanaF_fuel_irrel ops thr, hbase, htop, ?_⟩
  rw [List.all_eq_true]
  intro y hy
  exact htop y hy

/-- Witness for C5: threshold 1 is positive and katana on a polygon of area 0
at the top level returns only polygons. -/
theorem katana_spec_witness :
    (0 : ℚ) < 1 ∧ (katana opsW (Geom.poly (0 : ℚ)) 1 0).all isPolygonB = true :=
  ⟨by norm_num, (katana_spec opsW (0 : ℚ) 1 (by norm_num)).2.2.2⟩

/-- C7: remove_holes keeps exactly the large interior rings.  Under the
library facts that buffer(0) is the identity on the already-valid rebuilt
parts and that the union of a single part is that part: on a polygon, the
result is the polygon rebuilt with precisely those interior rings whose
spanned area strictly exceeds the keep threshold - a ring survives as a hole
exactly when its area is strictly greater than the threshold, and every ring
at or below it is filled; on a multipolygon, every part is rebuilt the same
way and the parts are reassembled by the union. -/
theorem remove_holes_spec {R : Type} (ops : ShapeOps R) (ext : R)
    (rings : List R) (parts : List (PolyG R)) (kt : ℚ)
    (hbuf : ∀ g, ops.buffer g 0 = g)
    (hun : ∀ g, ops.unionList [g] = g) :
    remove_holes ops (Geom.poly ⟨ext, rings⟩) kt =
      Except.ok (Geom.poly (keep_large_rings ops kt ⟨ext, rings⟩))
  ∧ (∀ r ∈ rings,
      r ∈ (keep_large_rings ops kt ⟨ext, rings⟩).interiors ↔ kt < ops.ringArea r)
  ∧ remove_holes ops (Geom.multi parts) kt =
      Except.ok (ops.unionList
        (parts.map (fun g => Geom.poly (keep_large_rings ops kt g)))) := by
  have hfill : fill_small_holes ops kt = fun g => Geom.poly (keep_large_rings ops kt g) := by
    funext g
    simp [fill_small_holes, hbuf]
  refine ⟨?_, fun r hr => ?_, ?_⟩
  · simp [remove_holes, except_bind_ok, hfill, hun]
  · simp [keep_large_rings, List.mem_filter, hr]
  · simp [remove_holes, except_bind_ok, hfill]

/-- Witness for C7: with keep threshold 1000000, the 2000000 ring survives as
a hole and the 500 ring is filled. -/
theorem remove_holes_spec_witness :
    remove_holes opsR (Geom.poly ⟨(0 : ℚ), ringsW⟩) 1000000 =
      Except.ok (Geom.poly ⟨(0 : ℚ), [2000000]⟩)
  ∧ ((2000000 : ℚ) ∈ (keep_large_rings opsR 1000000 ⟨(0 : ℚ), ringsW⟩).interiors
      ↔ (1000000 : ℚ) < 2000000)
  ∧ ((500 : ℚ) ∈ (keep_large_rings opsR 1000000 ⟨(0 : ℚ), ringsW⟩).interiors
      ↔ (1000000 : ℚ) < 500) := by
  have h := remove_holes_spec opsR (0 : ℚ) ringsW [] 1000000
    (fun g => rfl) (fun g => rfl)
  refine ⟨?_, ?_, ?_⟩
  · rw [h.1]
    have : keep_large_rings opsR 1000000 ⟨(0 : ℚ), ringsW⟩ =
        ⟨(0 : ℚ), [2000000]⟩ := by
      simp [keep_large_rings, ringsW, opsR]
      norm_num
    rw [this]
  · have hmem : (2000000 : ℚ) ∈ ringsW := by simp [ringsW]
    have h2 := h.2.1 (2000000 : ℚ) hmem
    simpa [opsR] using h2
  · have hmem : (500 : ℚ) ∈ ringsW := by simp [ringsW]
    have h5 := h.2.1 (500 : ℚ) hmem
    simpa [opsR] using h5

/-- A Polygon or MultiPolygon stays one under despike_and_smooth, provided
every buffer does; and remove_holes on such a geometry always succeeds. -/
theorem despike_polymulti {R : Type} (ops : ShapeOps R) (resolution : ℚ)
    (g : Geom (PolyG R))
    (hbufPM : ∀ x d, isPolyOrMultiB x = true → isPolyOrMultiB (ops.buffer x d) = true)
    (hg : isPolyOrMultiB g = true) :
    isPolyOrMultiB (despike_and_smooth ops resolution g) = true := by
  unfold despike_and_smooth
  exact hbufPM _ _ (hbufPM _ _ (hbufPM _ _ (hbufPM _ _ (hbufPM _ _ (hbufPM _ _ hg)))))

/-- remove_holes succeeds on every Polygon or MultiPolygon input. -/
theorem remove_holes_ok {R : Type} (ops : ShapeOps R) (g : Geom (PolyG R))
    (kt : ℚ) (hg : isPolyOrMultiB g = true) :
    ∃ out, remove_holes ops g kt = Except.ok out := by
  cases g with
  | poly p => exact ⟨_, rfl⟩
  | multi ps => exact ⟨_, rfl⟩
  | coll gs => simp [isPolyOrMultiB] at hg
  | other => simp [isPolyOrMultiB] at hg

/-- C6: the area gate of filter_geometry.  With the union and buffers of the
library (buffers preserving polygonality): when the unioned input is a single
polygon of area strictly below the polygon threshold the call fails with the
assertion error; when it is a single polygon at or above the threshold the
call succeeds, the gated geometry passing unchanged into the buffer and
hole-removal pipeline; and when it is a multipolygon, the parts kept are
exactly those with area strictly above the threshold - the rest are dropped -
and the call succeeds. -/
theorem filter_geometry_area_gate {R : Type} (ops : ShapeOps R)
    (geometry : Geom (PolyG R)) (resolution polygon_threshold hole_threshold : ℚ)
    (hgeom : geometry ≠ Geom.other)
    (hbufPM : ∀ x d, isPolyOrMultiB x = true → isPolyOrMultiB (ops.buffer x d) = true) :
    (∀ p1, ops.union1 geometry = Geom.poly p1 →
      ops.polyArea p1 < polygon_threshold →
      filter_geometry ops geometry resolution polygon_threshold hole_threshold =
        Except.error (PyErr.assertionError "Input geometry is smaller than threshold."))
  ∧ (∀ p1, ops.union1 geometry = Geom.poly p1 →
      polygon_threshold ≤ ops.polyArea p1 →
      filter_geometry ops geometry resolution polygon_threshold hole_threshold =
        remove_holes ops (despike_and_smooth ops resolution (Geom.poly p1))
          hole_threshold
    ∧ ∃ out, filter_geometry ops geometry resolution polygon_threshold
        hole_threshold = Except.ok out)
  ∧ (∀ ps, ops.union1 geometry = Geom.multi ps →
      filter_geometry ops geometry resolution polygon_threshold hole_threshold =
        remove_holes ops (despike_and_smooth ops resolution
          (Geom.multi (ps.filter (fun q => polygon_threshold < ops.polyArea q))))
          hole_threshold
    ∧ (∀ q ∈ ps, (q ∈ ps.filter (fun q2 => polygon_threshold < ops.polyArea q2) ↔
        polygon_threshold < ops.polyArea q))
    ∧ ∃ out, filter_geometry ops geometry resolution polygon_threshold
        hole_threshold = Except.ok out) := by
  have hu : filter_geometry ops geometry resolution polygon_threshold hole_threshold =
      (do
        let g2 ← area_gate ops polygon_threshold (ops.union1 geometry)
        remove_holes ops (despike_and_smooth ops resolution g2) hole_threshold) := by
    cases geometry with
    | poly p => rfl
    | multi ps => rfl
    | coll gs => rfl
    | other => exact absurd rfl hgeom
  refine ⟨fun p1 hp1 harea => ?_, fun p1 hp1 harea => ?_, fun ps hps => ?_⟩
  · rw [hu, hp1]
    simp [area_gate, not_le.mpr harea, except_bind_err]
  · have heq : filter_geometry ops geometry resolution polygon_threshold
        hole_threshold =
        remove_holes ops (despike_and_smooth ops resolution (Geom.poly p1))
          hole_threshold := by
      rw [hu, hp1]
      simp [area_gate, harea, except_bind_ok]
    refine ⟨heq, ?_⟩
    rw [heq]
    exact remove_holes_ok ops _ hole_threshold
      (despike_polymulti ops resolution _ hbufPM rfl)
  · have heq : filter_geometry ops geometry resolution polygon_threshold
        hole_threshold =
        remove_holes ops (despike_and_smooth ops resolution
          (Geom.multi (ps.filter (fun q => polygon_threshold < ops.polyArea q))))
          hole_threshold := by
      rw [hu, hps]
      simp [area_gate, except_bind_ok]
    refine ⟨heq, fun q hq => by simp [List.mem_filter, hq], ?_⟩
    rw [heq]
    exact remove_holes_ok ops _ hole_threshold
      (despike_polymulti ops resolution _ hbufPM rfl)

/-- Witness for C6: a single polygon of area 50 with the default threshold
10000 fails the assertion. -/
theorem filter_geometry_area_gate_witness :
    filter_geometry opsR (Geom.poly ⟨(50 : ℚ), []⟩) 30 10000 1000000 =
      Except.error (PyErr.assertionError "Input geometry is smaller than threshold.") := by
  have h := (filter_geometry_area_gate opsR (Geom.poly ⟨(50 : ℚ), []⟩) 30 10000 1000000
      (fun hcontra => Geom.noConfusion hcontra)
      (fun x d hx => hx)).1 ⟨(50 : ℚ), []⟩ rfl (by norm_num [opsR])
  exact h
